import Mathlib

/-!
Verification of the fgt-webhook-shaper service (src/app.py) against its
natural-language specification.

The embedding models:
* the `webhook` request handler (authentication, validation, event
  classification, `wan_streams` parsing, SharedClock update, the enable
  path, the pause/stop gating and task spawning, the unknown-event path);
* `delayed_disable` (the DebounceScheduler task body): the 120-step,
  1-second-resolution polling wait on the shared `resume_event` flag,
  as a pure function of the sequence of flag values it observes;
* `check_inactivity` (the IdleWatchdog loop body): one tick of the
  5-minute loop, deciding whether to fire `Disable()` and whether to
  reset `last_event_time`;
* a labelled small-step system over the whole shared server state
  (`last_event_time`, `resume_event`, the set of spawned tasks), whose
  notification step is the `webhook` function itself and whose task steps
  are the atomic actions of `delayed_disable`, used for the claims about
  cross-task cancellation.

External effects (SSH execution, logging) are modelled by the
`ExecResult` outcome passed in and by the ordered list of observable
actions (`WAct` / `ExecCall`) each operation emits.
-/

namespace FgtShaper

/-- A JSON-ish value as it can appear in the `wan_streams` field of the
request body: an integer, a string, or some other value on which Python's
`int(...)` raises (`None`, lists, objects, ...). -/
inductive JVal where
  | jint (n : Int)
  | jstr (s : String)
  | jother
deriving DecidableEq

/-- ASCII whitespace, as stripped by Python's `int(str)` conversion. -/
def isPySpace (c : Char) : Bool :=
  c = ' ' ∨ c = '\t' ∨ c = '\n' ∨ c = '\r' ∨ c = '\x0b' ∨ c = '\x0c'

/-- Decimal digit test. -/
def isPyDigit (c : Char) : Bool :=
  '0' ≤ c ∧ c ≤ '9'

/-- Value of a list of decimal digits. -/
def digitsVal (l : List Char) : Nat :=
  l.foldl (fun n c => 10 * n + (c.toNat - 48)) 0

/-- Model of Python `int(s)` on a string: strip surrounding whitespace and
accept an optionally signed run of decimal digits; `none` when the
conversion raises `ValueError`.  (Digit-group underscores, a Python
nicety no webhook sender uses, are not modelled.) -/
def pyParseInt (s : String) : Option Int :=
  let l := ((s.data.dropWhile isPySpace).reverse.dropWhile isPySpace).reverse
  match l with
  | [] => none
  | '+' :: rest =>
    if rest ≠ [] ∧ rest.all isPyDigit then some (digitsVal rest) else none
  | '-' :: rest =>
    if rest ≠ [] ∧ rest.all isPyDigit then some (-(digitsVal rest : Int)) else none
  | _ =>
    if l.all isPyDigit then some (digitsVal l) else none

/-- Model of `int(wan_streams)` in the handler: integers pass through,
strings are parsed, anything else raises (`TypeError`/`ValueError`),
reported here as `none`. -/
def parseIntJ : JVal → Option Int
  | .jint n => some n
  | .jstr s => pyParseInt s
  | .jother => none

/-- Lines 164-169 of src/app.py: `request_data.get('wan_streams', 0)`
followed by `int(...)` with the `except` branch defaulting to 0. -/
def parseStreams (w : Option JVal) : Int :=
  (parseIntJ (w.getD (.jint 0))).getD 0

/-- ASCII lowercasing of one character, as Python's `str.lower()` acts on
the ASCII event names this service compares against. -/
def asciiLowerChar (c : Char) : Char :=
  if 'A' ≤ c ∧ c ≤ 'Z' then Char.ofNat (c.toNat + 32) else c

/-- Model of `request_data['event'].lower()` (src/app.py line 163),
restricted to ASCII case folding, which is all the comparisons at lines
173-202 depend on. -/
def pyLower (s : String) : String :=
  String.mk (s.data.map asciiLowerChar)

/-- The parsed JSON body of a request: presence of the `event` key (with a
string value) and the optional `wan_streams` value. -/
structure ReqBody where
  event : Option String
  wan_streams : Option JVal
deriving DecidableEq

/-- An incoming HTTP request, reduced to what the handler reads: the
`X-Webhook-Token` header (absent or present) and the parsed JSON body
(`none` when the body is missing or unparsable, mirroring
`request.get_json(silent=True)` returning `None`). -/
structure Request where
  token : Option String
  body : Option ReqBody
deriving DecidableEq

/-- Convenience constructor for a well-formed request carrying the given
token, event string and integer `wan_streams`. -/
def mkReq (tok ev : String) (ws : Int) : Request :=
  { token := some tok, body := some { event := some ev, wan_streams := some (.jint ws) } }

/-- The outcome of one `ssh_execute_command` call (the ActionExecutor
contract): success flag plus output and error text. -/
structure ExecResult where
  success : Bool
  output : String
  error : String
deriving DecidableEq

/-- The responses the `webhook` handler can return, one constructor per
`return` site in src/app.py. -/
inductive Resp where
  | unauthorized
  | invalid
  | enableOk (event output : String)
  | enableFail (error : String)
  | ignoredStreams (event : String) (wan_streams : Int)
  | scheduled (event : String)
  | ignoredUnknown (event : String)
deriving DecidableEq

/-- HTTP status code attached to each response in src/app.py. -/
def respStatus : Resp → Nat
  | .unauthorized => 401
  | .invalid => 400
  | .enableOk _ _ => 200
  | .enableFail _ => 500
  | .ignoredStreams _ _ => 200
  | .scheduled _ => 200
  | .ignoredUnknown _ => 200

/-- The state of one spawned `delayed_disable` thread:
`created` = thread started but has not yet run its first statement
(`resume_event.clear()`); `waiting e` = at the head of the polling loop
with `elapsed = e`; `cancelled` = returned early on observing the flag;
`expired` = left the loop after the full wait and executed the disable
command. -/
inductive TaskState where
  | created
  | waiting (elapsed : Nat)
  | cancelled
  | expired
deriving DecidableEq

/-- The process-wide mutable state of src/app.py: `last_event_time`
(SharedClock, as seconds), `resume_event` (the shared CancellationSignal)
and the states of all spawned delayed-disable tasks. -/
structure ServerState where
  last_event_time : Nat
  resume_event : Bool
  tasks : List TaskState
deriving DecidableEq

/-- Observable side effects of one `webhook` call, in execution order:
writing SharedClock, setting the CancellationSignal, the synchronous
`Enable()` executor call, spawning a delayed-disable thread. -/
inductive WAct where
  | clockSet
  | sigSet
  | enableCall
  | spawn
deriving DecidableEq

/-- Result of one `webhook` call: the HTTP response, the updated shared
state, and the ordered list of side effects performed. -/
structure WebhookOut where
  resp : Resp
  state : ServerState
  acts : List WAct
deriving DecidableEq

/-- The `webhook` handler (src/app.py lines 146-213).
`cfgToken` is `WEBHOOK_TOKEN`, `now` the value of `datetime.now()` at
line 171, `enableEx` the outcome `ssh_execute_command` would return on the
enable path.  Auth: `if not auth_token or auth_token != WEBHOOK_TOKEN`
(a missing header and an empty header are both falsy, modelled via
`getD ""`).  Validation: `if not request_data or 'event' not in
request_data`.  Then the event is lowercased, `wan_streams` parsed with
default 0, SharedClock overwritten, and the handler branches on the event
kind exactly as the source does. -/
def webhook (cfgToken : String) (req : Request) (now : Nat) (enableEx : ExecResult)
    (s : ServerState) : WebhookOut :=
  let authTok := req.token.getD ""
  if authTok = "" ∨ authTok ≠ cfgToken then
    { resp := .unauthorized, state := s, acts := [] }
  else
    match req.body with
    | none => { resp := .invalid, state := s, acts := [] }
    | some body =>
      match body.event with
      | none => { resp := .invalid, state := s, acts := [] }
      | some ev0 =>
        let event := pyLower ev0
        let wan_streams := parseStreams body.wan_streams
        let s1 : ServerState := { s with last_event_time := now }
        if event = "playback_start" ∨ event = "playback_resume" then
          let s2 : ServerState := { s1 with resume_event := true }
          if enableEx.success then
            { resp := .enableOk event enableEx.output, state := s2,
              acts := [.clockSet, .sigSet, .enableCall] }
          else
            { resp := .enableFail enableEx.error, state := s2,
              acts := [.clockSet, .sigSet, .enableCall] }
        else if event = "playback_pause" then
          if wan_streams > 1 then
            { resp := .ignoredStreams event wan_streams, state := s1, acts := [.clockSet] }
          else
            { resp := .scheduled event,
              state := { s1 with tasks := s1.tasks ++ [.created] },
              acts := [.clockSet, .spawn] }
        else if event = "playback_stop" then
          if wan_streams ≥ 1 then
            { resp := .ignoredStreams event wan_streams, state := s1, acts := [.clockSet] }
          else
            { resp := .scheduled event,
              state := { s1 with tasks := s1.tasks ++ [.created] },
              acts := [.clockSet, .spawn] }
        else
          { resp := .ignoredUnknown event, state := s1, acts := [.clockSet] }

/-- Executor operations, for recording which calls a component makes. -/
inductive ExecCall where
  | enable
  | disable
deriving DecidableEq

/-- Result of one watchdog tick: the executor calls made and the value of
`last_event_time` afterwards. -/
structure TickOut where
  calls : List ExecCall
  last_event_time : Nat
deriving DecidableEq

/-- One iteration of the `check_inactivity` loop (src/app.py lines
87-110), after the 300-second sleep.  `now` is `current_time`
(line 89), `now2` the later `datetime.now()` of line 110 (evaluated after
the SSH call), `ex` the disable call's outcome (only logged), `last` the
current `last_event_time`.  The elapsed time is compared as a real-valued
difference, so it is taken in `Int`. -/
def check_inactivity_tick (now now2 : Nat) (ex : ExecResult) (last : Nat) : TickOut :=
  let elapsed : Int := (now : Int) - (last : Int)
  if elapsed ≥ 7200 then
    { calls := [.disable], last_event_time := now2 }
  else
    { calls := [], last_event_time := last }

/-- Whether a delayed-disable task terminated by cancellation or by
expiring and firing the disable command. -/
inductive TaskOutcome where
  | Cancelled
  | Expired
deriving DecidableEq

/-- Summary of one `delayed_disable` run: how it ended, the value of
`elapsed` when it ended (= whole seconds slept when started at 0), and how
many times it executed the disable command. -/
structure DDResult where
  outcome : TaskOutcome
  elapsed : Nat
  disableCalls : Nat
deriving DecidableEq

/-- The polling loop of `delayed_disable` (src/app.py lines 116-144),
from loop head with counter `elapsed`.  `resumeSet t` is the value
`resume_event.is_set()` returns at the poll of iteration `t`.  Each
iteration with `elapsed < 120` first polls the flag (returning
`Cancelled` if set), then sleeps 1 second and increments `elapsed`; once
`elapsed` reaches 120 the loop exits and the disable command runs once. -/
def dd_loop (resumeSet : Nat → Bool) (elapsed : Nat) : DDResult :=
  if h : elapsed < 120 then
    if resumeSet elapsed then
      { outcome := .Cancelled, elapsed := elapsed, disableCalls := 0 }
    else
      dd_loop resumeSet (elapsed + 1)
  else
    { outcome := .Expired, elapsed := elapsed, disableCalls := 1 }
termination_by 120 - elapsed
decreasing_by omega

/-- A full `delayed_disable` run (after its initial `resume_event.clear()`,
which is modelled as the `taskBegin` step of the transition system),
observing flag value `resumeSet t` at poll `t`. -/
def delayed_disable (resumeSet : Nat → Bool) : DDResult :=
  dd_loop resumeSet 0

/-- Labels for the atomic steps of the concurrent system:
`notify` = one full `webhook` call (GIL-atomic with respect to the other
steps for the shared variables it touches); `taskBegin i` = the first
statement `resume_event.clear()` of spawned task `i`; `taskStep i` = one
iteration of task `i`'s polling loop (one flag read, then either early
return, a 1-second sleep, or — once `elapsed` reaches 120 — the final
disable command); `tick` = one `check_inactivity` iteration. -/
inductive SLabel where
  | notify (req : Request) (now : Nat) (ex : ExecResult)
  | taskBegin (i : Nat)
  | taskStep (i : Nat)
  | tick (now now2 : Nat) (ex : ExecResult)

/-- Effect of one atomic step on the shared server state.  Labels whose
precondition does not hold (e.g. a poll step for a task that is not
waiting) leave the state unchanged. -/
def stepFn (cfgToken : String) (s : ServerState) : SLabel → ServerState
  | .notify req now ex => (webhook cfgToken req now ex s).state
  | .taskBegin i =>
    match s.tasks[i]? with
    | some .created =>
      { s with resume_event := false, tasks := s.tasks.set i (.waiting 0) }
    | _ => s
  | .taskStep i =>
    match s.tasks[i]? with
    | some (.waiting e) =>
      if e < 120 then
        if s.resume_event then { s with tasks := s.tasks.set i .cancelled }
        else { s with tasks := s.tasks.set i (.waiting (e + 1)) }
      else { s with tasks := s.tasks.set i .expired }
    | _ => s
  | .tick now now2 ex =>
    { s with last_event_time := (check_inactivity_tick now now2 ex s.last_event_time).last_event_time }

/-- Run a sequence of atomic steps from a state. -/
def runSteps (cfgToken : String) (s : ServerState) : List SLabel → ServerState
  | [] => s
  | l :: ls => runSteps cfgToken (stepFn cfgToken s l) ls

/-! ## Lemmas about the delayed-disable polling loop -/

lemma dd_loop_elapsed_le (resumeSet : Nat → Bool) :
    ∀ n e, 120 - e = n → e ≤ 120 → (dd_loop resumeSet e).elapsed ≤ 120 := by
  intro n
  induction n with
  | zero =>
    intro e h1 h2
    have he : e = 120 := by omega
    subst he
    rw [dd_loop]
    simp
  | succ n ih =>
    intro e h1 h2
    have hlt : e < 120 := by omega
    rw [dd_loop, dif_pos hlt]
    cases hr : resumeSet e with
    | true => simp [hr]; omega
    | false => simp [hr]; exact ih (e + 1) (by omega) (by omega)

lemma dd_loop_never_set (resumeSet : Nat → Bool) :
    ∀ n e, 120 - e = n → e ≤ 120 → (∀ t, t < 120 → resumeSet t = false) →
    dd_loop resumeSet e = { outcome := .Expired, elapsed := 120, disableCalls := 1 } := by
  intro n
  induction n with
  | zero =>
    intro e h1 h2 _
    have he : e = 120 := by omega
    subst he
    rw [dd_loop]
    simp
  | succ n ih =>
    intro e h1 h2 h3
    have hlt : e < 120 := by omega
    rw [dd_loop, dif_pos hlt, h3 e hlt]
    simpa using ih (e + 1) (by omega) (by omega) h3

lemma dd_loop_cancelled (resumeSet : Nat → Bool) :
    ∀ n e, 120 - e = n → (∃ t, e ≤ t ∧ t < 120 ∧ resumeSet t = true) →
    (dd_loop resumeSet e).outcome = .Cancelled ∧ (dd_loop resumeSet e).disableCalls = 0 := by
  intro n
  induction n with
  | zero =>
    intro e h1 h2
    rcases h2 with ⟨t, ht1, ht2, _⟩
    omega
  | succ n ih =>
    intro e h1 h2
    have hlt : e < 120 := by
      rcases h2 with ⟨t, ht1, ht2, _⟩
      omega
    rw [dd_loop, dif_pos hlt]
    cases hr : resumeSet e with
    | true => simp [hr]
    | false =>
      simp only [hr, if_false, Bool.false_eq_true]
      refine ih (e + 1) (by omega) ?_
      rcases h2 with ⟨t, ht1, ht2, ht3⟩
      refine ⟨t, ?_, ht2, ht3⟩
      rcases Nat.eq_or_lt_of_le ht1 with rfl | h
      · rw [ht3] at hr; cases hr
      · omega

/-! ## Claim theorems about the polling loop -/

/-- C2: a scheduled delayed-disable task waits at most 120 seconds,
polling the shared CancellationSignal once per 1-second step; if it ever
observes the signal set during the wait it terminates without calling
Disable(), and if all 120 one-second steps elapse with the signal never
observed set it calls Disable() exactly once and terminates (state
Expired). -/
theorem delayed_disable_polling_spec (resumeSet : Nat → Bool) :
    (delayed_disable resumeSet).elapsed ≤ 120 ∧
    ((∃ t, t < 120 ∧ resumeSet t = true) →
      (delayed_disable resumeSet).outcome = .Cancelled ∧
      (delayed_disable resumeSet).disableCalls = 0) ∧
    ((∀ t, t < 120 → resumeSet t = false) →
      delayed_disable resumeSet =
        { outcome := .Expired, elapsed := 120, disableCalls := 1 }) := by
  refine ⟨dd_loop_elapsed_le resumeSet 120 0 rfl (by omega), ?_, ?_⟩
  · intro h
    rcases h with ⟨t, ht, hs⟩
    exact dd_loop_cancelled resumeSet 120 0 rfl ⟨t, Nat.zero_le t, ht, hs⟩
  · intro h
    exact dd_loop_never_set resumeSet 120 0 rfl (by omega) h

/-- Witness for C2: a run whose flag is set at second 5 is cancelled and
never disables; a run that never sees the flag expires after the full
120 seconds with exactly one disable call. -/
theorem delayed_disable_polling_spec_witness :
    ((delayed_disable (fun t => decide (t = 5))).outcome = .Cancelled ∧
     (delayed_disable (fun t => decide (t = 5))).disableCalls = 0) ∧
    delayed_disable (fun _ => false) =
      { outcome := .Expired, elapsed := 120, disableCalls := 1 } :=
  ⟨(delayed_disable_polling_spec (fun t => decide (t = 5))).2.1 ⟨5, by decide, by decide⟩,
   (delayed_disable_polling_spec (fun _ => false)).2.2 (fun _ _ => rfl)⟩

/-! ## Claim theorems about authentication, validation and parsing -/

/-- C8: a request with a missing or mismatching (or empty, hence falsy)
shared-secret token is rejected with an authorization failure, and an
authenticated request with an unparsable body or a missing event field is
rejected with a validation failure; in all cases the returned state is
exactly the input state (no SharedClock update, no CancellationSignal
change, no task spawned) and the action list is empty (no executor
call). -/
theorem reject_paths_no_side_effects (cfgToken : String) (req : Request)
    (now : Nat) (ex : ExecResult) (s : ServerState) :
    (req.token = none →
      webhook cfgToken req now ex s = ⟨.unauthorized, s, []⟩) ∧
    (∀ t, req.token = some t → (t = "" ∨ t ≠ cfgToken) →
      webhook cfgToken req now ex s = ⟨.unauthorized, s, []⟩) ∧
    (cfgToken ≠ "" → req.token = some cfgToken → req.body = none →
      webhook cfgToken req now ex s = ⟨.invalid, s, []⟩) ∧
    (cfgToken ≠ "" → req.token = some cfgToken →
      ∀ b, req.body = some b → b.event = none →
      webhook cfgToken req now ex s = ⟨.invalid, s, []⟩) := by
  refine ⟨?_, ?_, ?_, ?_⟩
  · intro h
    unfold webhook
    rw [h]
    simp
  · intro t ht hcase
    unfold webhook
    rw [ht]
    rcases hcase with rfl | hne
    · simp
    · simp [hne]
  · intro hc htok hb
    unfold webhook
    rw [htok, hb]
    simp [hc]
  · intro hc htok b hb hev
    unfold webhook
    rw [htok, hb]
    simp [hc, hev]

/-- Witness for C8: concrete rejected requests (missing token, wrong
token, missing body, missing event field) leave a concrete state
untouched. -/
theorem reject_paths_no_side_effects_witness :
    (webhook "tok" ⟨none, some ⟨some "playback_stop", none⟩⟩ 9 ⟨true, "", ""⟩ ⟨3, false, []⟩ =
      ⟨.unauthorized, ⟨3, false, []⟩, []⟩) ∧
    (webhook "tok" ⟨some "bad", some ⟨some "playback_stop", none⟩⟩ 9 ⟨true, "", ""⟩ ⟨3, false, []⟩ =
      ⟨.unauthorized, ⟨3, false, []⟩, []⟩) ∧
    (webhook "tok" ⟨some "tok", none⟩ 9 ⟨true, "", ""⟩ ⟨3, false, []⟩ =
      ⟨.invalid, ⟨3, false, []⟩, []⟩) ∧
    (webhook "tok" ⟨some "tok", some ⟨none, some (.jint 1)⟩⟩ 9 ⟨true, "", ""⟩ ⟨3, false, []⟩ =
      ⟨.invalid, ⟨3, false, []⟩, []⟩) :=
  ⟨(reject_paths_no_side_effects "tok" ⟨none, some ⟨some "playback_stop", none⟩⟩ 9
      ⟨true, "", ""⟩ ⟨3, false, []⟩).1 rfl,
   (reject_paths_no_side_effects "tok" ⟨some "bad", some ⟨some "playback_stop", none⟩⟩ 9
      ⟨true, "", ""⟩ ⟨3, false, []⟩).2.1 "bad" rfl (Or.inr (by decide)),
   (reject_paths_no_side_effects "tok" ⟨some "tok", none⟩ 9
      ⟨true, "", ""⟩ ⟨3, false, []⟩).2.2.1 (by decide) rfl rfl,
   (reject_paths_no_side_effects "tok" ⟨some "tok", some ⟨none, some (.jint 1)⟩⟩ 9
      ⟨true, "", ""⟩ ⟨3, false, []⟩).2.2.2 (by decide) rfl ⟨none, some (.jint 1)⟩ rfl rfl⟩

/-- C9: when the `wan_streams` field is absent, or present with a value
that fails to parse as an integer, the handler proceeds exactly as if the
field carried the integer 0 — same response, same state, same side
effects — and in particular the request is not rejected: the
acknowledgment is neither an authorization nor a validation failure. -/
theorem wan_streams_default_zero (cfgToken : String) (hc : cfgToken ≠ "")
    (ev : String) (w : Option JVal)
    (hw : w = none ∨ ∃ v, w = some v ∧ parseIntJ v = none)
    (now : Nat) (ex : ExecResult) (s : ServerState) :
    webhook cfgToken ⟨some cfgToken, some ⟨some ev, w⟩⟩ now ex s =
      webhook cfgToken ⟨some cfgToken, some ⟨some ev, some (.jint 0)⟩⟩ now ex s ∧
    (webhook cfgToken ⟨some cfgToken, some ⟨some ev, w⟩⟩ now ex s).resp ≠ .unauthorized ∧
    (webhook cfgToken ⟨some cfgToken, some ⟨some ev, w⟩⟩ now ex s).resp ≠ .invalid := by
  have hps : parseStreams w = parseStreams (some (.jint 0)) := by
    rcases hw with rfl | ⟨v, rfl, hv⟩
    · rfl
    · simp [parseStreams, hv]
      rfl
  have heq : webhook cfgToken ⟨some cfgToken, some ⟨some ev, w⟩⟩ now ex s =
      webhook cfgToken ⟨some cfgToken, some ⟨some ev, some (.jint 0)⟩⟩ now ex s := by
    unfold webhook
    simp only [Option.getD_some, hps]
  refine ⟨heq, ?_⟩
  rw [heq]
  unfold webhook
  simp only [Option.getD_some]
  rw [if_neg (by simp [hc])]
  constructor
  · split_ifs <;> simp
  · split_ifs <;> simp

/-- Witness for C9: a concrete request whose `wan_streams` is the
unparsable string "abc" is handled exactly like the same request with
`wan_streams = 0` and is not rejected. -/
theorem wan_streams_default_zero_witness :
    webhook "tok" ⟨some "tok", some ⟨some "playback_stop", some (.jstr "abc")⟩⟩ 5 ⟨true, "", ""⟩
        ⟨0, true, []⟩ =
      webhook "tok" ⟨some "tok", some ⟨some "playback_stop", some (.jint 0)⟩⟩ 5 ⟨true, "", ""⟩
        ⟨0, true, []⟩ ∧
    (webhook "tok" ⟨some "tok", some ⟨some "playback_stop", some (.jstr "abc")⟩⟩ 5 ⟨true, "", ""⟩
        ⟨0, true, []⟩).resp ≠ .unauthorized ∧
    (webhook "tok" ⟨some "tok", some ⟨some "playback_stop", some (.jstr "abc")⟩⟩ 5 ⟨true, "", ""⟩
        ⟨0, true, []⟩).resp ≠ .invalid :=
  wan_streams_default_zero "tok" (by decide) "playback_stop" (some (.jstr "abc"))
    (Or.inr ⟨.jstr "abc", rfl, by decide⟩) 5 ⟨true, "", ""⟩ ⟨0, true, []⟩

lemma pyLower_pause : pyLower "playback_pause" = "playback_pause" := by decide

lemma pyLower_stop : pyLower "playback_stop" = "playback_stop" := by decide

lemma parseStreams_jint (n : Int) : parseStreams (some (.jint n)) = n := rfl

/-- C3: dispatch gates the disable path asymmetrically on the parsed
stream count: `playback_pause` schedules a delayed-disable task iff the
count is ≤ 1, while `playback_stop` schedules one iff the count is < 1;
in the ignored cases the handler acknowledges immediately with a
200-status "ignored" response and spawns no task. -/
theorem pause_stop_gating (cfgToken : String) (hc : cfgToken ≠ "")
    (now : Nat) (ex : ExecResult) (s : ServerState) (n : Int) :
    (n ≤ 1 →
      webhook cfgToken (mkReq cfgToken "playback_pause" n) now ex s =
        ⟨.scheduled "playback_pause",
         { s with last_event_time := now, tasks := s.tasks ++ [.created] },
         [.clockSet, .spawn]⟩) ∧
    (1 < n →
      webhook cfgToken (mkReq cfgToken "playback_pause" n) now ex s =
        ⟨.ignoredStreams "playback_pause" n,
         { s with last_event_time := now }, [.clockSet]⟩ ∧
      respStatus (webhook cfgToken (mkReq cfgToken "playback_pause" n) now ex s).resp = 200) ∧
    (n < 1 →
      webhook cfgToken (mkReq cfgToken "playback_stop" n) now ex s =
        ⟨.scheduled "playback_stop",
         { s with last_event_time := now, tasks := s.tasks ++ [.created] },
         [.clockSet, .spawn]⟩) ∧
    (1 ≤ n →
      webhook cfgToken (mkReq cfgToken "playback_stop" n) now ex s =
        ⟨.ignoredStreams "playback_stop" n,
         { s with last_event_time := now }, [.clockSet]⟩ ∧
      respStatus (webhook cfgToken (mkReq cfgToken "playback_stop" n) now ex s).resp = 200) := by
  have hguard : ¬(cfgToken = "" ∨ ¬cfgToken = cfgToken) := by simp [hc]
  refine ⟨?_, ?_, ?_, ?_⟩
  · intro hn
    unfold webhook mkReq
    simp only [Option.getD_some, if_neg hguard, parseStreams_jint, pyLower_pause]
    rw [if_pos trivial, if_neg (by omega : ¬n > 1)]
    simp
  · intro hn
    unfold webhook mkReq
    simp only [Option.getD_some, if_neg hguard, parseStreams_jint, pyLower_pause]
    rw [if_pos trivial, if_pos (by omega : n > 1)]
    exact ⟨rfl, rfl⟩
  · intro hn
    unfold webhook mkReq
    simp only [Option.getD_some, if_neg hguard, parseStreams_jint, pyLower_stop]
    rw [if_pos trivial, if_neg (by omega : ¬n ≥ 1)]
    simp
  · intro hn
    unfold webhook mkReq
    simp only [Option.getD_some, if_neg hguard, parseStreams_jint, pyLower_stop]
    rw [if_pos trivial, if_pos (by omega : n ≥ 1)]
    exact ⟨rfl, rfl⟩

/-- Witness for C3: with a concrete token and state, `playback_pause`
with 1 stream schedules and with 2 streams is ignored; `playback_stop`
with 0 streams schedules and with 1 stream is ignored. -/
theorem pause_stop_gating_witness :
    (webhook "tok" (mkReq "tok" "playback_pause" 1) 7 ⟨true, "", ""⟩ ⟨0, false, []⟩ =
      ⟨.scheduled "playback_pause", ⟨7, false, [.created]⟩, [.clockSet, .spawn]⟩) ∧
    (webhook "tok" (mkReq "tok" "playback_pause" 2) 7 ⟨true, "", ""⟩ ⟨0, false, []⟩ =
      ⟨.ignoredStreams "playback_pause" 2, ⟨7, false, []⟩, [.clockSet]⟩) ∧
    (webhook "tok" (mkReq "tok" "playback_stop" 0) 7 ⟨true, "", ""⟩ ⟨0, false, []⟩ =
      ⟨.scheduled "playback_stop", ⟨7, false, [.created]⟩, [.clockSet, .spawn]⟩) ∧
    (webhook "tok" (mkReq "tok" "playback_stop" 1) 7 ⟨true, "", ""⟩ ⟨0, false, []⟩ =
      ⟨.ignoredStreams "playback_stop" 1, ⟨7, false, []⟩, [.clockSet]⟩) :=
  ⟨(pause_stop_gating "tok" (by decide) 7 ⟨true, "", ""⟩ ⟨0, false, []⟩ 1).1 (by omega),
   ((pause_stop_gating "tok" (by decide) 7 ⟨true, "", ""⟩ ⟨0, false, []⟩ 2).2.1 (by omega)).1,
   (pause_stop_gating "tok" (by decide) 7 ⟨true, "", ""⟩ ⟨0, false, []⟩ 0).2.2.1 (by omega),
   ((pause_stop_gating "tok" (by decide) 7 ⟨true, "", ""⟩ ⟨0, false, []⟩ 1).2.2.2 (by omega)).1⟩

/-- C4: for every authenticated, valid Start/Resume notification
(any event string lowercasing to `playback_start` or `playback_resume`),
regardless of the `wan_streams` value, the handler sets the
CancellationSignal and synchronously performs exactly one Enable()
executor call — its ordered side effects are precisely
`[clockSet, sigSet, enableCall]` — spawns no task, and the
acknowledgment is exactly the success/failure of that call. -/
theorem enable_path_spec (cfgToken : String) (hc : cfgToken ≠ "")
    (ev : String) (hev : pyLower ev = "playback_start" ∨ pyLower ev = "playback_resume")
    (w : Option JVal) (now : Nat) (ex : ExecResult) (s : ServerState) :
    webhook cfgToken ⟨some cfgToken, some ⟨some ev, w⟩⟩ now ex s =
      { resp := if ex.success then .enableOk (pyLower ev) ex.output else .enableFail ex.error,
        state := { s with last_event_time := now, resume_event := true },
        acts := [.clockSet, .sigSet, .enableCall] } := by
  have hguard : ¬(cfgToken = "" ∨ ¬cfgToken = cfgToken) := by simp [hc]
  unfold webhook
  simp only [Option.getD_some, if_neg hguard, if_pos hev]
  split_ifs <;> rfl

/-- Witness for C4: a concrete mixed-case `Playback_Start` request with a
succeeding executor acknowledges success; the same request with a failing
executor acknowledges the failure; both set the signal and record exactly
one Enable call. -/
theorem enable_path_spec_witness :
    webhook "tok" ⟨some "tok", some ⟨some "Playback_Start", some (.jint 5)⟩⟩ 4
        ⟨true, "out", ""⟩ ⟨0, false, [.created]⟩ =
      { resp := .enableOk "playback_start" "out",
        state := ⟨4, true, [.created]⟩,
        acts := [.clockSet, .sigSet, .enableCall] } ∧
    webhook "tok" ⟨some "tok", some ⟨some "Playback_Start", some (.jint 5)⟩⟩ 4
        ⟨false, "", "boom"⟩ ⟨0, false, [.created]⟩ =
      { resp := .enableFail "boom",
        state := ⟨4, true, [.created]⟩,
        acts := [.clockSet, .sigSet, .enableCall] } :=
  ⟨enable_path_spec "tok" (by decide) "Playback_Start" (Or.inl (by decide))
      (some (.jint 5)) 4 ⟨true, "out", ""⟩ ⟨0, false, [.created]⟩,
   enable_path_spec "tok" (by decide) "Playback_Start" (Or.inl (by decide))
      (some (.jint 5)) 4 ⟨false, "", "boom"⟩ ⟨0, false, [.created]⟩⟩

/-- C7: for every authenticated, valid notification, the handler
overwrites SharedClock with the current time before branching — for all
event kinds, including unknown ones, the first recorded side effect is
the clock write; the CancellationSignal is mutated only on the
Start/Resume path, a task is spawned only on the qualifying Pause/Stop
path, and an unknown notification produces no effect beyond the clock
update and is acknowledged as ignored. -/
theorem dispatch_frame_effects (cfgToken : String) (hc : cfgToken ≠ "")
    (ev : String) (w : Option JVal) (now : Nat) (ex : ExecResult) (s : ServerState) :
    (webhook cfgToken ⟨some cfgToken, some ⟨some ev, w⟩⟩ now ex s).state.last_event_time = now ∧
    (webhook cfgToken ⟨some cfgToken, some ⟨some ev, w⟩⟩ now ex s).acts.head? = some .clockSet ∧
    (¬(pyLower ev = "playback_start" ∨ pyLower ev = "playback_resume") →
      (webhook cfgToken ⟨some cfgToken, some ⟨some ev, w⟩⟩ now ex s).state.resume_event =
        s.resume_event ∧
      WAct.sigSet ∉ (webhook cfgToken ⟨some cfgToken, some ⟨some ev, w⟩⟩ now ex s).acts) ∧
    (¬((pyLower ev = "playback_pause" ∧ parseStreams w ≤ 1) ∨
       (pyLower ev = "playback_stop" ∧ parseStreams w < 1)) →
      (webhook cfgToken ⟨some cfgToken, some ⟨some ev, w⟩⟩ now ex s).state.tasks = s.tasks ∧
      WAct.spawn ∉ (webhook cfgToken ⟨some cfgToken, some ⟨some ev, w⟩⟩ now ex s).acts) ∧
    (pyLower ev ≠ "playback_start" → pyLower ev ≠ "playback_resume" →
     pyLower ev ≠ "playback_pause" → pyLower ev ≠ "playback_stop" →
      webhook cfgToken ⟨some cfgToken, some ⟨some ev, w⟩⟩ now ex s =
        ⟨.ignoredUnknown (pyLower ev), { s with last_event_time := now }, [.clockSet]⟩) := by
  have hguard : ¬(cfgToken = "" ∨ ¬cfgToken = cfgToken) := by simp [hc]
  unfold webhook
  simp only [Option.getD_some, if_neg hguard]
  split_ifs with h1 h2 h3 h4 h5 h6 <;>
    refine ⟨rfl, rfl, fun h => ?_, fun h => ?_, fun ha hb hcp hd => ?_⟩ <;>
    simp_all

/-- Witness for C7: a concrete authenticated request with the unknown
event `media_scrobble` only updates the clock and is acknowledged as
ignored; its first action is the clock write. -/
theorem dispatch_frame_effects_witness :
    (webhook "tok" ⟨some "tok", some ⟨some "media_scrobble", some (.jint 0)⟩⟩ 11
        ⟨true, "", ""⟩ ⟨2, false, [.waiting 3]⟩).acts.head? = some .clockSet ∧
    webhook "tok" ⟨some "tok", some ⟨some "media_scrobble", some (.jint 0)⟩⟩ 11
        ⟨true, "", ""⟩ ⟨2, false, [.waiting 3]⟩ =
      ⟨.ignoredUnknown "media_scrobble", ⟨11, false, [.waiting 3]⟩, [.clockSet]⟩ :=
  ⟨(dispatch_frame_effects "tok" (by decide) "media_scrobble" (some (.jint 0)) 11
      ⟨true, "", ""⟩ ⟨2, false, [.waiting 3]⟩).2.1,
   (dispatch_frame_effects "tok" (by decide) "media_scrobble" (some (.jint 0)) 11
      ⟨true, "", ""⟩ ⟨2, false, [.waiting 3]⟩).2.2.2.2
      (by decide) (by decide) (by decide) (by decide)⟩

/-! ## Claim theorems about the idle watchdog -/

lemma check_inactivity_tick_eq (a b : Nat) (e : ExecResult) (l : Nat) :
    check_inactivity_tick a b e l =
      if 7200 ≤ (a : Int) - (l : Int) then ⟨[.disable], b⟩ else ⟨[], l⟩ := by
  unfold check_inactivity_tick
  rfl

/-- C5: on every watchdog tick, Disable() is attempted iff at least 7200
seconds have elapsed since SharedClock; whenever it is attempted,
SharedClock is reset to the current time irrespective of the executor
outcome (the tick result does not depend on the outcome at all); hence
with a persistently failing executor and no notifications two
consecutive attempts are at least 7200 seconds apart, and a tick
observed 7200 seconds after the reset does attempt a second call. -/
theorem watchdog_tick_spec (now now2 mo mo2 : Nat) (ex ex2 ex3 : ExecResult) (last : Nat) :
    ((check_inactivity_tick now now2 ex last).calls = [.disable] ↔
      7200 ≤ (now : Int) - (last : Int)) ∧
    (7200 ≤ (now : Int) - (last : Int) →
      (check_inactivity_tick now now2 ex last).last_event_time = now2) ∧
    check_inactivity_tick now now2 ex last = check_inactivity_tick now now2 ex2 last ∧
    ((check_inactivity_tick now now2 ex last).calls ≠ [] →
      (check_inactivity_tick mo mo2 ex3
          (check_inactivity_tick now now2 ex last).last_event_time).calls ≠ [] →
      7200 ≤ (mo : Int) - (now2 : Int)) ∧
    ((check_inactivity_tick now now2 ex last).calls ≠ [] →
      7200 ≤ (mo : Int) - (now2 : Int) →
      (check_inactivity_tick mo mo2 ex3
          (check_inactivity_tick now now2 ex last).last_event_time).calls = [.disable]) := by
  refine ⟨?_, ?_, ?_, ?_, ?_⟩ <;>
    simp only [check_inactivity_tick_eq] <;>
    split_ifs <;>
    simp_all

/-- Witness for C5: with SharedClock at 0, a tick measuring 7200 fires
and resets the clock to 7205; a second tick measuring 14405 = 7205 + 7200
fires again, for either executor outcome. -/
theorem watchdog_tick_spec_witness :
    (check_inactivity_tick 7200 7205 ⟨false, "", "e"⟩ 0).last_event_time = 7205 ∧
    (check_inactivity_tick 14405 14410 ⟨false, "", "e"⟩
        (check_inactivity_tick 7200 7205 ⟨false, "", "e"⟩ 0).last_event_time).calls =
      [.disable] ∧
    check_inactivity_tick 7200 7205 ⟨false, "", "e"⟩ 0 =
      check_inactivity_tick 7200 7205 ⟨true, "ok", ""⟩ 0 :=
  ⟨(watchdog_tick_spec 7200 7205 14405 14410 ⟨false, "", "e"⟩ ⟨true, "ok", ""⟩
      ⟨false, "", "e"⟩ 0).2.1 (by decide),
   (watchdog_tick_spec 7200 7205 14405 14410 ⟨false, "", "e"⟩ ⟨true, "ok", ""⟩
      ⟨false, "", "e"⟩ 0).2.2.2.2 (by decide) (by decide),
   (watchdog_tick_spec 7200 7205 14405 14410 ⟨false, "", "e"⟩ ⟨true, "ok", ""⟩
      ⟨false, "", "e"⟩ 0).2.2.1⟩

/-- C10: on any watchdog tick where strictly less than 7200 seconds have
elapsed since SharedClock, no executor call is made and SharedClock is
left unchanged; whenever a tick makes no call, it leaves SharedClock
unchanged, i.e. the watchdog modifies SharedClock only on ticks in which
it attempts a Disable(). -/
theorem watchdog_quiet_tick_frame (now now2 : Nat) (ex : ExecResult) (last : Nat) :
    ((now : Int) - (last : Int) < 7200 →
      check_inactivity_tick now now2 ex last = ⟨[], last⟩) ∧
    ((check_inactivity_tick now now2 ex last).calls = [] →
      (check_inactivity_tick now now2 ex last).last_event_time = last) := by
  simp only [check_inactivity_tick_eq]
  split_ifs with h1 <;> simp_all

/-- Witness for C10: a tick 7199 seconds after the last event makes no
call and keeps SharedClock at 0. -/
theorem watchdog_quiet_tick_frame_witness :
    check_inactivity_tick 7199 7204 ⟨true, "", ""⟩ 0 = ⟨[], 0⟩ :=
  (watchdog_quiet_tick_frame 7199 7204 ⟨true, "", ""⟩ 0).1 (by decide)

/-! ## Lemmas about the atomic task steps -/

lemma stepFn_taskStep_resume_event (cfg : String) (s : ServerState) (i : Nat) :
    (stepFn cfg s (.taskStep i)).resume_event = s.resume_event := by
  unfold stepFn
  rcases h : s.tasks[i]? with _ | t
  · simp [h]
  · cases t <;> simp [h] <;> split_ifs <;> rfl

lemma stepFn_taskStep_get_ne (cfg : String) (s : ServerState) (j i : Nat) (hij : j ≠ i) :
    (stepFn cfg s (.taskStep j)).tasks[i]? = s.tasks[i]? := by
  unfold stepFn
  rcases h : s.tasks[j]? with _ | t
  · simp [h]
  · cases t <;> simp [h] <;> split_ifs <;> simp [List.getElem?_set_ne hij]

lemma stepFn_taskStep_waiting_cancel (cfg : String) (s : ServerState) (i e : Nat)
    (h : s.tasks[i]? = some (.waiting e)) (he : e < 120) (hflag : s.resume_event = true) :
    (stepFn cfg s (.taskStep i)).tasks[i]? = some .cancelled := by
  have hlen : i < s.tasks.length := (List.getElem?_eq_some_iff.mp h).1
  unfold stepFn
  simp [h, he, hflag, List.getElem?_set_self hlen]

lemma stepFn_taskStep_waiting_advance (cfg : String) (s : ServerState) (i e : Nat)
    (h : s.tasks[i]? = some (.waiting e)) (he : e < 120) (hflag : s.resume_event = false) :
    (stepFn cfg s (.taskStep i)).tasks[i]? = some (.waiting (e + 1)) := by
  have hlen : i < s.tasks.length := (List.getElem?_eq_some_iff.mp h).1
  unfold stepFn
  simp [h, he, hflag, List.getElem?_set_self hlen]

lemma stepFn_taskStep_waiting_expire (cfg : String) (s : ServerState) (i e : Nat)
    (h : s.tasks[i]? = some (.waiting e)) (he : ¬e < 120) :
    (stepFn cfg s (.taskStep i)).tasks[i]? = some .expired := by
  have hlen : i < s.tasks.length := (List.getElem?_eq_some_iff.mp h).1
  unfold stepFn
  simp [h, he, List.getElem?_set_self hlen]

lemma stepFn_taskStep_cancelled (cfg : String) (s : ServerState) (i : Nat)
    (h : s.tasks[i]? = some .cancelled) :
    stepFn cfg s (.taskStep i) = s := by
  unfold stepFn
  simp [h]

lemma stepFn_taskStep_expired (cfg : String) (s : ServerState) (i : Nat)
    (h : s.tasks[i]? = some .expired) :
    stepFn cfg s (.taskStep i) = s := by
  unfold stepFn
  simp [h]

lemma stepFn_taskBegin_created (cfg : String) (s : ServerState) (i : Nat)
    (h : s.tasks[i]? = some .created) :
    stepFn cfg s (.taskBegin i) =
      { s with resume_event := false, tasks := s.tasks.set i (.waiting 0) } := by
  unfold stepFn
  simp [h]

lemma runSteps_taskOnly_inv (cfg : String) (ls : List SLabel)
    (hl : ∀ l ∈ ls, ∃ j, l = SLabel.taskStep j) :
    ∀ s : ServerState, s.resume_event = true →
    ∀ i : Nat,
      (s.tasks[i]? = some TaskState.cancelled ∨
        ∃ e : Nat, e < 120 ∧ s.tasks[i]? = some (TaskState.waiting e)) →
      (runSteps cfg s ls).resume_event = true ∧
      ((runSteps cfg s ls).tasks[i]? = some TaskState.cancelled ∨
        ∃ e : Nat, e < 120 ∧ (runSteps cfg s ls).tasks[i]? = some (TaskState.waiting e)) := by
  induction ls with
  | nil => exact fun s hs i hi => ⟨hs, hi⟩
  | cons l ls ih =>
    intro s hs i hi
    obtain ⟨j, rfl⟩ := hl l (List.mem_cons_self l ls)
    have hs' : (stepFn cfg s (.taskStep j)).resume_event = true := by
      rw [stepFn_taskStep_resume_event]
      exact hs
    refine ih (fun l' hl' => hl l' (List.mem_cons_of_mem _ hl')) _ hs' i ?_
    by_cases hij : j = i
    · subst hij
      rcases hi with hc | ⟨e, he, hw⟩
      · left
        rw [stepFn_taskStep_cancelled cfg s j hc]
        exact hc
      · left
        exact stepFn_taskStep_waiting_cancel cfg s j e hw he hs
    · rcases hi with hc | ⟨e, he, hw⟩
      · left
        rw [stepFn_taskStep_get_ne cfg s j i hij]
        exact hc
      · right
        exact ⟨e, he, by rw [stepFn_taskStep_get_ne cfg s j i hij]; exact hw⟩

/-- C1: setting the shared CancellationSignal (as any processed
Start/Resume notification does) cancels every delayed-disable task
currently in its waiting state, not just the most recently spawned one:
from any state in which the signal is set, along any interleaving of
polling/expiry steps of the in-flight tasks, no task that was waiting
(with fewer than 120 elapsed polls) ever reaches the `expired` state,
i.e. none of them executes the disable command. -/
theorem shared_signal_cancels_all_waiting_tasks (cfg : String) (s : ServerState)
    (hsig : s.resume_event = true) (ls : List SLabel)
    (hls : ∀ l ∈ ls, ∃ j, l = SLabel.taskStep j) (i e : Nat)
    (hi : s.tasks[i]? = some (.waiting e)) (he : e < 120) :
    (runSteps cfg s ls).tasks[i]? ≠ some .expired := by
  have h := runSteps_taskOnly_inv cfg ls hls s hsig i (Or.inr ⟨e, he, hi⟩)
  rcases h.2 with hc | ⟨e', _, hw⟩
  · rw [hc]
    intro hcontra
    cases hcontra
  · rw [hw]
    intro hcontra
    cases hcontra

/-- Witness for C1: with the signal set and two waiting tasks (spawned by
unrelated earlier notifications), running both tasks through two steps
each leaves neither expired — here checked for the first task; both end
cancelled. -/
theorem shared_signal_cancels_all_waiting_tasks_witness :
    (runSteps "tok" ⟨0, true, [.waiting 3, .waiting 110]⟩
        [.taskStep 0, .taskStep 1, .taskStep 0, .taskStep 1]).tasks[0]? ≠
      some .expired ∧
    runSteps "tok" ⟨0, true, [.waiting 3, .waiting 110]⟩
        [.taskStep 0, .taskStep 1, .taskStep 0, .taskStep 1] =
      ⟨0, true, [.cancelled, .cancelled]⟩ :=
  ⟨shared_signal_cancels_all_waiting_tasks "tok" ⟨0, true, [.waiting 3, .waiting 110]⟩ rfl
      [.taskStep 0, .taskStep 1, .taskStep 0, .taskStep 1]
      (by
        intro l hl
        simp only [List.mem_cons, List.not_mem_nil, or_false] at hl
        rcases hl with rfl | rfl | rfl | rfl
        · exact ⟨0, rfl⟩
        · exact ⟨1, rfl⟩
        · exact ⟨0, rfl⟩
        · exact ⟨1, rfl⟩)
      0 3 rfl (by omega),
   by decide⟩

lemma runSteps_replicate_preserves_expired (cfg : String) :
    ∀ (n : Nat) (s : ServerState) (i : Nat), s.tasks[i]? = some TaskState.expired →
      (runSteps cfg s (List.replicate n (.taskStep i))).tasks[i]? = some TaskState.expired := by
  intro n
  induction n with
  | zero => exact fun s i h => h
  | succ n ih =>
    intro s i h
    simp only [List.replicate_succ, runSteps]
    rw [stepFn_taskStep_expired cfg s i h]
    exact ih s i h

lemma runSteps_replicate_expires (cfg : String) :
    ∀ (n e : Nat) (s : ServerState) (i : Nat), s.resume_event = false →
      s.tasks[i]? = some (TaskState.waiting e) → e ≤ 120 → 120 < e + n →
      (runSteps cfg s (List.replicate n (.taskStep i))).tasks[i]? = some TaskState.expired := by
  intro n
  induction n with
  | zero =>
    intro e s i _ _ he hen
    omega
  | succ n ih =>
    intro e s i hf hw he hen
    simp only [List.replicate_succ, runSteps]
    by_cases hlt : e < 120
    · refine ih (e + 1) _ i ?_ ?_ (by omega) (by omega)
      · rw [stepFn_taskStep_resume_event]
        exact hf
      · exact stepFn_taskStep_waiting_advance cfg s i e hw hlt hf
    · exact runSteps_replicate_preserves_expired cfg n _ i
        (stepFn_taskStep_waiting_expire cfg s i e hw hlt)

lemma stepFn_notify (cfg : String) (s : ServerState) (req : Request) (now : Nat)
    (ex : ExecResult) :
    stepFn cfg s (.notify req now ex) = (webhook cfg req now ex s).state := rfl

lemma webhook_start_state (cfg : String) (hc : cfg ≠ "") (w : Option JVal)
    (n1 : Nat) (ex : ExecResult) (s : ServerState) :
    (webhook cfg ⟨some cfg, some ⟨some "playback_start", w⟩⟩ n1 ex s).state =
      { s with last_event_time := n1, resume_event := true } := by
  have hguard : ¬(cfg = "" ∨ ¬cfg = cfg) := by simp [hc]
  unfold webhook
  simp only [Option.getD_some, if_neg hguard]
  rw [if_pos (Or.inl (by decide))]
  split_ifs <;> rfl

lemma webhook_pause0_state (cfg : String) (hc : cfg ≠ "")
    (n2 : Nat) (ex : ExecResult) (s : ServerState) :
    (webhook cfg (mkReq cfg "playback_pause" 0) n2 ex s).state =
      { s with last_event_time := n2, tasks := s.tasks ++ [TaskState.created] } := by
  have hguard : ¬(cfg = "" ∨ ¬cfg = cfg) := by simp [hc]
  unfold webhook mkReq
  simp only [Option.getD_some, if_neg hguard, parseStreams_jint, pyLower_pause]
  rw [if_pos trivial, if_neg (by omega : ¬(0 : Int) > 1)]
  simp

/-- C6: every delayed-disable task clears the single process-wide
CancellationSignal as its first step (part 1); consequently, if an
enable (Start) notification is fully processed before a qualifying Pause
notification spawns a task, that earlier enable does not cancel the new
task: absent any enable arriving during its wait, the new task runs the
full 120 polling steps and executes the disable command, ending
`expired` (part 2); and the clear also erases the pending cancellation
as observed by any older still-waiting task, which — polling right after
the clear — continues waiting instead of cancelling (part 3). -/
theorem task_clear_erases_pending_cancellation (cfg : String) (hc : cfg ≠ "")
    (s : ServerState) (w : Option JVal) (n1 n2 : Nat) (ex1 ex2 : ExecResult) :
    (∀ (t : ServerState) (i : Nat), t.tasks[i]? = some TaskState.created →
      stepFn cfg t (.taskBegin i) =
        { t with resume_event := false, tasks := t.tasks.set i (TaskState.waiting 0) }) ∧
    (runSteps cfg s
        ([.notify ⟨some cfg, some ⟨some "playback_start", w⟩⟩ n1 ex1,
          .notify (mkReq cfg "playback_pause" 0) n2 ex2,
          .taskBegin s.tasks.length] ++
         List.replicate 121 (.taskStep s.tasks.length))).tasks[s.tasks.length]? =
      some TaskState.expired ∧
    (∀ (j e : Nat), s.tasks[j]? = some (TaskState.waiting e) → e < 120 →
      (runSteps cfg s
          [.notify ⟨some cfg, some ⟨some "playback_start", w⟩⟩ n1 ex1,
           .notify (mkReq cfg "playback_pause" 0) n2 ex2,
           .taskBegin s.tasks.length]).resume_event = false ∧
      (stepFn cfg
          (runSteps cfg s
            [.notify ⟨some cfg, some ⟨some "playback_start", w⟩⟩ n1 ex1,
             .notify (mkReq cfg "playback_pause" 0) n2 ex2,
             .taskBegin s.tasks.length])
          (.taskStep j)).tasks[j]? = some (TaskState.waiting (e + 1))) := by
  have hlen : s.tasks.length < (s.tasks ++ [TaskState.created]).length := by
    simp
  have hs2 : runSteps cfg s
      [.notify ⟨some cfg, some ⟨some "playback_start", w⟩⟩ n1 ex1,
       .notify (mkReq cfg "playback_pause" 0) n2 ex2,
       .taskBegin s.tasks.length] =
      { last_event_time := n2, resume_event := false,
        tasks := (s.tasks ++ [TaskState.created]).set s.tasks.length (TaskState.waiting 0) } := by
    simp only [runSteps, stepFn_notify, webhook_start_state cfg hc,
      webhook_pause0_state cfg hc]
    rw [stepFn_taskBegin_created cfg _ s.tasks.length (by simp [List.getElem?_concat_length])]
  refine ⟨fun t i h => stepFn_taskBegin_created cfg t i h, ?_, ?_⟩
  · have : runSteps cfg s
        ([.notify ⟨some cfg, some ⟨some "playback_start", w⟩⟩ n1 ex1,
          .notify (mkReq cfg "playback_pause" 0) n2 ex2,
          .taskBegin s.tasks.length] ++
         List.replicate 121 (.taskStep s.tasks.length)) =
        runSteps cfg
          (runSteps cfg s
            [.notify ⟨some cfg, some ⟨some "playback_start", w⟩⟩ n1 ex1,
             .notify (mkReq cfg "playback_pause" 0) n2 ex2,
             .taskBegin s.tasks.length])
          (List.replicate 121 (.taskStep s.tasks.length)) := by
      simp only [List.cons_append, List.nil_append, runSteps]
    rw [this, hs2]
    refine runSteps_replicate_expires cfg 121 0 _ s.tasks.length rfl ?_ (by omega) (by omega)
    exact List.getElem?_set_self hlen
  · intro j e hj he
    have hjlen : j < s.tasks.length := (List.getElem?_eq_some_iff.mp hj).1
    have hjget : ((s.tasks ++ [TaskState.created]).set s.tasks.length
        (TaskState.waiting 0))[j]? = some (TaskState.waiting e) := by
      rw [List.getElem?_set_ne (by omega)]
      rw [List.getElem?_append_left hjlen]
      exact hj
    refine ⟨by rw [hs2], ?_⟩
    rw [hs2]
    exact stepFn_taskStep_waiting_advance cfg _ j e hjget he rfl

/-- Witness for C6: from an initial state with one still-waiting task, a
processed `playback_start` (setting the signal) followed by a
`playback_pause` spawning a second task: the second task, once begun,
clears the signal and — with no further enable — expires after its full
wait; and the older task's next poll observes the cleared signal and
keeps waiting. -/
theorem task_clear_erases_pending_cancellation_witness :
    (runSteps "tok" ⟨0, false, [TaskState.waiting 7]⟩
        ([.notify ⟨some "tok", some ⟨some "playback_start", some (.jint 1)⟩⟩ 3 ⟨true, "", ""⟩,
          .notify (mkReq "tok" "playback_pause" 0) 4 ⟨true, "", ""⟩,
          .taskBegin 1] ++
         List.replicate 121 (.taskStep 1))).tasks[1]? = some TaskState.expired ∧
    (stepFn "tok"
        (runSteps "tok" ⟨0, false, [TaskState.waiting 7]⟩
          [.notify ⟨some "tok", some ⟨some "playback_start", some (.jint 1)⟩⟩ 3 ⟨true, "", ""⟩,
           .notify (mkReq "tok" "playback_pause" 0) 4 ⟨true, "", ""⟩,
           .taskBegin 1])
        (.taskStep 0)).tasks[0]? = some (TaskState.waiting 8) :=
  ⟨(task_clear_erases_pending_cancellation "tok" (by decide) ⟨0, false, [TaskState.waiting 7]⟩
      (some (.jint 1)) 3 4 ⟨true, "", ""⟩ ⟨true, "", ""⟩).2.1,
   ((task_clear_erases_pending_cancellation "tok" (by decide) ⟨0, false, [TaskState.waiting 7]⟩
      (some (.jint 1)) 3 4 ⟨true, "", ""⟩ ⟨true, "", ""⟩).2.2 0 7 rfl (by omega)).2⟩

end FgtShaper
